import Mathlib

/-!
Shallow embedding of the synthetic-data generator of the
telco-network-optimization-suite repository (class `TelcoDataGenerator`
in `data_generator.py`), together with proofs of the spec claims.

Modelling conventions:
* The three module-level seeded pseudo-random generators (`random`,
  `numpy.random` and `Faker`) are modelled as a single abstract stream of
  natural numbers plus a cursor; each primitive draw consumes one stream
  element and advances the cursor.  Seeding at module import time fixes
  the stream and places the cursor at 0.
* Calendar datetimes are modelled as integer day numbers; `datetime.now()`
  becomes an explicit parameter `now`.  The `strftime` month formatting is
  abstracted by flooring the day number to a 30-day month index.
* Python floats are modelled as rationals; Python `round(x, d)` is
  round-half-to-even, modelled exactly on rationals.
* Faker string fields (names, addresses, ...) are modelled as a tag
  concatenated with the consumed stream value.
-/

/-- State of the module-level pseudo-random generators: the stream of
values fixed by the seeds, plus the cursor of the next value to consume. -/
structure RNG where
  stream : Nat → Nat
  idx : Nat

/-- A computation that consumes pseudo-random values (models Python code
calling the module-level generators). -/
def Gen (α : Type) : Type := RNG → α × RNG

def Gen.pure {α : Type} (a : α) : Gen α := fun r => (a, r)

def Gen.bind {α β : Type} (x : Gen α) (f : α → Gen β) : Gen β :=
  fun r => f (x r).1 (x r).2

instance genMonad : Monad Gen where
  pure := Gen.pure
  bind := Gen.bind

@[simp] theorem Gen.bind_apply {α β : Type} (x : Gen α) (f : α → Gen β) (r : RNG) :
    (x >>= f) r = f (x r).1 (x r).2 := rfl

@[simp] theorem Gen.pure_apply {α : Type} (a : α) (r : RNG) :
    (Gen.pure a) r = (a, r) := rfl

@[simp] theorem Gen.bindFn_apply {α β : Type} (x : Gen α) (f : α → Gen β) (r : RNG) :
    (Gen.bind x f) r = f (x r).1 (x r).2 := rfl


/-- Consume one pseudo-random stream value (underlies every draw). -/
def nextNat : Gen Nat := fun r => (r.stream r.idx, ⟨r.stream, r.idx + 1⟩)

/-- Python `random.randint(a, b)`: an integer in `[a, b]` (for `a ≤ b`). -/
def randint (a b : Int) : Gen Int := do
  let d ← nextNat
  pure (a + (d : Int) % (b - a + 1))

/-- Python `random.random()`: a rational in `[0, 1)`. -/
def randomFloat : Gen ℚ := do
  let d ← nextNat
  pure (((d % 1000 : ℕ) : ℚ) / 1000)

/-- Python `random.uniform(a, b)`. -/
def uniformQ (a b : ℚ) : Gen ℚ := do
  let u ← randomFloat
  pure (a + (b - a) * u)

/-- Model of `numpy.random.normal(mu, sigma)`, abstracted: a value within a few
standard deviations, determined by the stream (no claim depends on the
exact distribution). -/
def normalQ (mu sigma : ℚ) : Gen ℚ := do
  let d ← nextNat
  pure (mu + sigma * (((d % 601 : ℕ) : ℚ) - 300) / 100)

/-- Python `random.choice` over a nonempty literal list (`d` is returned
only for an empty list, which no call site produces). -/
def choiceL {α : Type} (xs : List α) (d : α) : Gen α := do
  let k ← nextNat
  pure (xs.getD (k % xs.length) d)

/-- Walk a weight list: pick the element whose cumulative-weight band
contains `t`. -/
def pickWeighted {α : Type} : List α → List Nat → Nat → α → α
  | x :: xs, w :: ws, t, d => if t < w then x else pickWeighted xs ws (t - w) d
  | _, _, _, d => d

/-- Python `random.choices(xs, weights=ws)[0]`. -/
def choicesW {α : Type} (xs : List α) (ws : List Nat) (d : α) : Gen α := do
  let k ← nextNat
  pure (pickWeighted xs ws (k % ws.sum) d)

/-- Faker string fields, abstracted: tag plus the consumed stream value. -/
def fakeStr (tag : String) : Gen String := do
  let k ← nextNat
  pure (tag ++ toString k)

/-- Faker `date_between(lo, hi)`, as `randint` on day numbers. -/
def dateBetween (lo hi : Int) : Gen Int := randint lo hi

/-- Round a rational to the nearest integer, ties to even (Python `round`). -/
def roundHalfEven (q : ℚ) : ℤ :=
  let n := ⌊q⌋
  let f := q - (n : ℚ)
  if f < 1/2 then n
  else if (1/2 : ℚ) < f then n + 1
  else if n % 2 = 0 then n else n + 1

/-- Python `round(x, d)` on rationals. -/
def roundTo (d : Nat) (q : ℚ) : ℚ :=
  ((roundHalfEven (q * (10 : ℚ) ^ d) : ℚ)) / (10 : ℚ) ^ d

def startsWithL : List Char → List Char → Bool
  | _, [] => true
  | [], _ :: _ => false
  | a :: as, b :: bs => decide (a = b) && startsWithL as bs

def hasSubL (pat : List Char) : List Char → Bool
  | [] => pat.isEmpty
  | c :: rest => startsWithL (c :: rest) pat || hasSubL pat rest

/-- pandas `Series.str.contains` with a plain-word pattern: substring
test; a regex alternation `a|b` is modelled as the disjunction of the
substring tests at each call site. -/
def strContains (s pat : String) : Bool := hasSubL pat.toList s.toList

/-- A row of the customers table (`generate_customer_demographics`). -/
structure Customer where
  customer_id : String
  first_name : String
  last_name : String
  email : String
  phone_number : String
  date_of_birth : Int
  gender : String
  address : String
  city : String
  state : String
  zip_code : String
  country : String
  account_creation_date : Int
  customer_segment : String
  account_status : String
  preferred_contact_method : String
  credit_score : Int
  annual_income : Int
deriving DecidableEq

/-- A row of the plans table (`generate_service_plans`).  The per-type
capacity columns (data_gb, minutes, texts, speed_mbps, data_limit,
channels, hd_channels) are omitted: no claim mentions them. -/
structure Plan where
  plan_id : String
  plan_name : String
  service_type : String
  monthly_fee : ℚ
deriving DecidableEq

/-- A row of the services table (`generate_customer_services`). -/
structure Service where
  customer_id : String
  service_id : String
  plan_id : String
  plan_name : String
  service_type : String
  monthly_fee : ℚ
  service_start_date : Int
  service_status : String
  auto_pay : Bool
  contract_length : Nat
  early_termination_fee : ℚ
deriving DecidableEq

/-- A row of the usage table (`generate_usage_data`).  The three
type-specific field sets become Option columns, as in the pandas
DataFrame built from heterogeneous dicts. -/
structure UsageRow where
  customer_id : String
  service_id : String
  usage_month : Int
  data_used_gb : Option ℚ
  minutes_used : Option Int
  texts_sent : Option Int
  overage_charges : Option ℚ
  peak_speed_mbps : Option ℚ
  uptime_percentage : Option ℚ
  hours_watched : Option Int
  channels_watched : Option Int
  ppv_purchases : Option ℚ
deriving DecidableEq

/-- A row of the billing table (`generate_billing_data`). -/
structure BillingRow where
  customer_id : String
  service_id : String
  bill_date : Int
  due_date : Int
  amount_due : ℚ
  amount_paid : ℚ
  payment_date : Option Int
  payment_method : String
  payment_status : String
  late_fee : ℚ
deriving DecidableEq

/-- A row of the support-tickets table (`generate_support_tickets`). -/
structure Ticket where
  customer_id : String
  ticket_id : String
  creation_date : Int
  issue_type : String
  priority : String
  status : String
  resolution_time_hours : ℚ
  satisfaction_rating : Nat
  channel : String
  agent_id : String
deriving DecidableEq

/-- A row of the NPS-surveys table (`generate_nps_surveys`). -/
structure Survey where
  customer_id : String
  survey_id : String
  survey_date : Int
  nps_score : Nat
  category : String
  feedback : Option String
deriving DecidableEq

/-- A row of the customer-metrics table (`calculate_customer_metrics`). -/
structure Metrics where
  customer_id : String
  total_services : Nat
  active_services : Nat
  monthly_revenue : ℚ
  total_lifetime_value : ℚ
  tenure_months : Int
  support_tickets_count : Nat
  avg_resolution_time_hours : ℚ
  avg_satisfaction_rating : ℚ
  latest_nps_score : Option Nat
  churn_risk_score : Nat
  upsell_score : Nat
  last_interaction_date : Option Int
deriving DecidableEq

/-- The fixed 10-row plan catalog (`generate_service_plans`). -/
def generate_service_plans : List Plan :=
  [ { plan_id := "PLAN_001", plan_name := "Basic Mobile", service_type := "Mobile", monthly_fee := 35.99 },
    { plan_id := "PLAN_002", plan_name := "Premium Mobile", service_type := "Mobile", monthly_fee := 55.99 },
    { plan_id := "PLAN_003", plan_name := "Ultimate Mobile", service_type := "Mobile", monthly_fee := 85.99 },
    { plan_id := "PLAN_004", plan_name := "Home Internet Basic", service_type := "Internet", monthly_fee := 49.99 },
    { plan_id := "PLAN_005", plan_name := "Home Internet Pro", service_type := "Internet", monthly_fee := 69.99 },
    { plan_id := "PLAN_006", plan_name := "Home Internet Gigabit", service_type := "Internet", monthly_fee := 99.99 },
    { plan_id := "PLAN_007", plan_name := "Basic TV", service_type := "TV", monthly_fee := 39.99 },
    { plan_id := "PLAN_008", plan_name := "Premium TV", service_type := "TV", monthly_fee := 79.99 },
    { plan_id := "PLAN_009", plan_name := "Business Mobile", service_type := "Mobile", monthly_fee := 45.99 },
    { plan_id := "PLAN_010", plan_name := "Business Internet", service_type := "Internet", monthly_fee := 129.99 } ]

/-- Zero-pad a number to width `w` (Python format `{n:0wd}`). -/
def padNum (w n : Nat) : String :=
  let s := toString n
  String.mk (List.replicate (w - s.length) ('0')) ++ s

/-- One iteration of the `generate_customer_demographics` loop: the
customer dict for index `i`, with the draws in source order. -/
def genCustomer (now : Int) (i : Nat) : Gen Customer := do
  let fn ← fakeStr ("FN")
  let ln ← fakeStr ("LN")
  let em ← fakeStr ("EMAIL")
  let ph ← fakeStr ("PHONE")
  let dob ← dateBetween (now - 80 * 365) (now - 18 * 365)
  let g ← choiceL [("Male"), ("Female"), ("Other")] ("Male")
  let ad ← fakeStr ("ADDR")
  let ci ← fakeStr ("CITY")
  let st ← fakeStr ("STATE")
  let zp ← fakeStr ("ZIP")
  let acd ← dateBetween (now - 5 * 365) now
  let seg ← choiceL [("Individual"), ("Small Business"), ("Enterprise")] ("Individual")
  let acct ← choicesW [("Active"), ("Suspended"), ("Cancelled")] [85, 10, 5] ("Active")
  let pcm ← choiceL [("Email"), ("Phone"), ("SMS"), ("App")] ("Email")
  let cs ← randint 300 850
  let ai ← randint 25000 200000
  pure { customer_id := ("CUST_") ++ padNum 6 (i + 1),
         first_name := fn, last_name := ln, email := em, phone_number := ph,
         date_of_birth := dob, gender := g, address := ad, city := ci,
         state := st, zip_code := zp, country := "USA",
         account_creation_date := acd, customer_segment := seg,
         account_status := acct, preferred_contact_method := pcm,
         credit_score := cs, annual_income := ai }

/-- The `for i in range(num_customers)` loop, peeled from the front:
`k` rows remain, `total` is the requested count (so `i = total - k`). -/
def demographicsLoop (now : Int) (total : Nat) : Nat → Gen (List Customer)
  | 0 => pure []
  | k + 1 => do
      let c ← genCustomer now (total - (k + 1))
      let rest ← demographicsLoop now total k
      pure (c :: rest)

/-- Embedding of `generate_customer_demographics`: N sequential customers.  A
non-positive requested count gives `range` of an empty interval, hence
no rows and no error (there is no validation in `__init__`). -/
def generate_customer_demographics (now : Int) (num_customers : Int) : Gen (List Customer) :=
  demographicsLoop now num_customers.toNat num_customers.toNat

/-- The segment-dependent candidate plan pool of
`generate_customer_services` (pandas boolean-mask filters with
`str.contains` regex alternations, written out as substring tests). -/
def segmentPool (seg : String) (plans : List Plan) : List Plan :=
  if seg = "Enterprise" then
    plans.filter (fun p =>
      strContains p.plan_name ("Business") || strContains p.plan_name ("Premium") ||
      strContains p.plan_name ("Ultimate") || strContains p.plan_name ("Pro") ||
      strContains p.plan_name ("Gigabit"))
  else if seg = "Small Business" then
    plans.filter (fun p => !(strContains p.plan_name ("Basic")))
  else
    plans

/-- pandas `DataFrame.sample(n)`: `n` distinct rows chosen by the stream
(also used for `sample(frac=...)` after the fraction is resolved to a
row count).  Runs out of rows gracefully, but every call site passes
`n ≤ length`. -/
def sampleK {α : Type} : Nat → List α → Gen (List α)
  | 0, _ => pure []
  | _ + 1, [] => pure []
  | k + 1, p0 :: rest => do
      let d ← nextNat
      let pool := p0 :: rest
      let i := d % pool.length
      let rest2 ← sampleK k (pool.eraseIdx i)
      pure (pool.getD i p0 :: rest2)

/-- The inner loop body of `generate_customer_services`: one service row
for a selected plan, `sid` being `len(services) + 1`. -/
def serviceFromPlan (now : Int) (cust : Customer) (sid : Nat) (p : Plan) : Gen Service := do
  let start ← dateBetween cust.account_creation_date now
  let status ← choicesW [("Active"), ("Suspended"), ("Cancelled")] [85, 8, 7] ("Active")
  let ap ← choiceL [true, false] true
  let cl ← choiceL [12, 24, 0] 12
  let rr ← randomFloat
  let etf ← if rr < 3/10 then uniformQ 0 200 else pure 0
  pure { customer_id := cust.customer_id,
         service_id := ("SVC_") ++ padNum 8 sid,
         plan_id := p.plan_id, plan_name := p.plan_name,
         service_type := p.service_type, monthly_fee := p.monthly_fee,
         service_start_date := start, service_status := status,
         auto_pay := ap, contract_length := cl, early_termination_fee := etf }

/-- The `for _, plan in selected_plans.iterrows()` loop: appends one
service per selected plan to the accumulated list (whose length feeds
the running service-id counter). -/
def servicesForPlans (now : Int) (cust : Customer) : List Plan → List Service → Gen (List Service)
  | [], acc => pure acc
  | p :: ps, acc => do
      let s ← serviceFromPlan now cust (acc.length + 1) p
      servicesForPlans now cust ps (acc ++ [s])

/-- The outer `for _, customer in customers_df.iterrows()` loop of
`generate_customer_services`. -/
def customerServicesLoop (now : Int) (plans : List Plan) : List Customer → List Service → Gen (List Service)
  | [], acc => pure acc
  | cust :: rest, acc => do
      let n ← choicesW [1, 2, 3, 4] [30, 40, 20, 10] 1
      let available := segmentPool cust.customer_segment plans
      let selected ← sampleK (min n available.length) available
      let acc2 ← servicesForPlans now cust selected acc
      customerServicesLoop now plans rest acc2

/-- Embedding of `generate_customer_services`: for each customer, a weighted 1-4
service count, a segment-filtered pool, a capped without-replacement
sample, and one subscription row per selected plan. -/
def generate_customer_services (now : Int) (customers : List Customer) (plans : List Plan) : Gen (List Service) :=
  customerServicesLoop now plans customers []

/-- Abstraction of `strftime('%Y-%m')` on `datetime.now() - 30*k days`:
the 30-day month index of the day number. -/
def monthIdx (t : Int) : Int := Int.fdiv t 30

/-- The type dispatch inside `generate_usage_data`: the three
`if/elif/elif` branches each build a fresh row; an unknown service type
takes none of them (modelled as `none`). -/
def usageDispatch (now : Int) (sv : Service) (mo : Nat) : Gen (Option UsageRow) :=
  if sv.service_type = "Mobile" then do
    let du ← normalQ 15 8
    let mu ← normalQ 800 400
    let ts ← normalQ 1500 800
    let data_used := max 0 du
    pure (some
      { customer_id := sv.customer_id, service_id := sv.service_id,
        usage_month := monthIdx (now - 30 * mo),
        data_used_gb := some (roundTo 2 data_used),
        minutes_used := some (max 0 ⌊mu⌋), texts_sent := some (max 0 ⌊ts⌋),
        overage_charges := some (if data_used > 25 then max 0 ((data_used - 25) * 10) else 0),
        peak_speed_mbps := none, uptime_percentage := none,
        hours_watched := none, channels_watched := none, ppv_purchases := none })
  else if sv.service_type = "Internet" then do
    let du ← normalQ 400 200
    let psn ← normalQ (8/10) (1/10)
    let up ← normalQ (992/10) (15/10)
    pure (some
      { customer_id := sv.customer_id, service_id := sv.service_id,
        usage_month := monthIdx (now - 30 * mo),
        data_used_gb := some (roundTo 2 (max 0 du)),
        minutes_used := none, texts_sent := none, overage_charges := none,
        peak_speed_mbps := some (psn * sv.monthly_fee * 10),
        uptime_percentage := some (max 95 up),
        hours_watched := none, channels_watched := none, ppv_purchases := none })
  else if sv.service_type = "TV" then do
    let hw ← normalQ 120 60
    let cw ← normalQ 15 8
    let ppv ← choicesW [0, 1, 2, 3] [70, 20, 7, 3] 0
    pure (some
      { customer_id := sv.customer_id, service_id := sv.service_id,
        usage_month := monthIdx (now - 30 * mo),
        data_used_gb := none, minutes_used := none, texts_sent := none,
        overage_charges := none, peak_speed_mbps := none, uptime_percentage := none,
        hours_watched := some (max 0 ⌊hw⌋),
        channels_watched := some (max 1 ⌊cw⌋),
        ppv_purchases := some ((ppv : ℚ) * 4.99) })
  else
    pure none

/-- The iteration space of `generate_usage_data`: Active subscriptions
only, each with month offsets 0..11. -/
def activeMonthPairs (services : List Service) : List (Service × Nat) :=
  services.flatMap (fun sv =>
    if sv.service_status = "Active" then (List.range 12).map (fun mo => (sv, mo)) else [])

/-- The append loop of `generate_usage_data`, with Python's
function-scoped `usage` variable made explicit: when the dispatch takes
no branch, the previous iteration's row is appended again (`stale`), and
on the very first iteration the variable is unbound (`NameError`). -/
def usageRun (now : Int) : List (Service × Nat) → Option UsageRow → Gen (Except String (List UsageRow))
  | [], _ => pure (Except.ok [])
  | (sv, mo) :: rest, stale => do
      let row? ← usageDispatch now sv mo
      match row?.orElse (fun _ => stale) with
      | none => pure (Except.error ("NameError: usage"))
      | some row => do
          let tail ← usageRun now rest (some row)
          pure (tail.map (fun l => row :: l))

/-- Embedding of `generate_usage_data`: 12 monthly rows per Active subscription,
dispatching on the service-type string. -/
def generate_usage_data (now : Int) (services : List Service) : Gen (Except String (List UsageRow)) :=
  usageRun now (activeMonthPairs services) none

/-- Unwrap the usage table when generation succeeded. -/
def usageRows (e : Except String (List UsageRow)) : List UsageRow :=
  match e with
  | Except.ok l => l
  | Except.error _ => []

/-- Whether usage generation completed without a `NameError`. -/
def exceptOk (e : Except String (List UsageRow)) : Bool :=
  match e with
  | Except.ok _ => true
  | Except.error _ => false

/-- The status-dependent payment-date rule of `generate_billing_data`
(the `if payment_status == ...` chain of the source). -/
def paymentDateFor (status : String) (due_date : Int) : Gen (Option Int) :=
  if status = "Paid" then do
    let d ← randint (-5) 5
    pure (some (due_date + d))
  else if status = "Late" then do
    let d ← randint 1 15
    pure (some (due_date + d))
  else
    pure none

/-- The billing-row dict literal of `generate_billing_data`. -/
def billRowOf (sv : Service) (bill_date due_date : Int) (total : ℚ) (status : String)
    (pd : Option Int) (pm : String) : BillingRow :=
  { customer_id := sv.customer_id, service_id := sv.service_id,
    bill_date := bill_date, due_date := due_date,
    amount_due := roundTo 2 total,
    amount_paid := if status = "Paid" ∨ status = "Late" then roundTo 2 total else 0,
    payment_date := pd, payment_method := pm, payment_status := status,
    late_fee := if status = "Late" then 25 else 0 }

/-- The month body of `generate_billing_data`: one billing row, draws in
source order. -/
def genBillRow (now : Int) (sv : Service) (mo : Nat) : Gen BillingRow := do
  let bill_date := now - 30 * mo
  let due_date := bill_date + 15
  let base := sv.monthly_fee
  let taxes := base * (8/100)
  let fees ← uniformQ 2 8
  let t1 := base + taxes + fees
  let rr ← randomFloat
  let total ← if rr < 15/100 then do
      let extra ← uniformQ 10 50
      pure (t1 + extra)
    else
      pure t1
  let status ← choicesW [("Paid"), ("Late"), ("Unpaid")] [85, 10, 5] ("Paid")
  let pd ← paymentDateFor status due_date
  let pm ← choiceL [("Credit Card"), ("Bank Transfer"), ("Check"), ("Auto Pay")] ("Credit Card")
  pure (billRowOf sv bill_date due_date total status pd pm)

/-- The 12-month inner loop of `generate_billing_data`, peeled from the
front (`k` months remain, so the offset is `12 - k`). -/
def billingMonths (now : Int) (sv : Service) : Nat → Gen (List BillingRow)
  | 0 => pure []
  | k + 1 => do
      let row ← genBillRow now sv (12 - (k + 1))
      let rest ← billingMonths now sv k
      pure (row :: rest)

/-- Embedding of `generate_billing_data`: 12 monthly rows for every subscription,
regardless of status. -/
def generate_billing_data (now : Int) : List Service → Gen (List BillingRow)
  | [] => pure []
  | sv :: rest => do
      let rows ← billingMonths now sv 12
      let tail ← generate_billing_data now rest
      pure (rows ++ tail)

/-- pandas `DataFrame.sample(frac=f)`: the row count is `round(f * len)`
(banker's rounding), then that many distinct rows are drawn. -/
def sampleFrac {α : Type} (f : ℚ) (rows : List α) : Gen (List α) :=
  sampleK (roundHalfEven (f * rows.length)).toNat rows

/-- One ticket of `generate_support_tickets`.  Python builds the whole
resolution-hours dict first, so all five `random.uniform` draws are
consumed before the dict is indexed by the issue type. -/
def genTicket (now : Int) (cust : Customer) (tid : Nat) : Gen Ticket := do
  let tdate ← dateBetween cust.account_creation_date now
  let issue ← choiceL [("Billing"), ("Technical Support"), ("Service Change"), ("Complaint"), ("Sales Inquiry")] ("Billing")
  let rbill ← uniformQ 1 24
  let rtech ← uniformQ 2 72
  let rserv ← uniformQ (1/2) 8
  let rcomp ← uniformQ 4 48
  let rsales ← uniformQ (1/2) 4
  let res := if issue = "Billing" then rbill
    else if issue = "Technical Support" then rtech
    else if issue = "Service Change" then rserv
    else if issue = "Complaint" then rcomp
    else rsales
  let pr ← choicesW [("Low"), ("Medium"), ("High"), ("Critical")] [40, 35, 20, 5] ("Low")
  let st ← choicesW [("Closed"), ("Open"), ("In Progress")] [80, 10, 10] ("Closed")
  let sat ← choicesW [1, 2, 3, 4, 5] [5, 10, 20, 35, 30] 1
  let ch ← choiceL [("Phone"), ("Email"), ("Chat"), ("In Store"), ("App")] ("Phone")
  let ag ← randint 1 50
  pure { customer_id := cust.customer_id,
         ticket_id := ("TKT_") ++ padNum 8 tid,
         creation_date := tdate, issue_type := issue, priority := pr,
         status := st, resolution_time_hours := res,
         satisfaction_rating := sat, channel := ch,
         agent_id := ("AGT_") ++ padNum 3 ag.toNat }

/-- The per-customer inner loop of `generate_support_tickets` (`k`
tickets remain; the accumulated list feeds the ticket-id counter). -/
def ticketsForCustomer (now : Int) (cust : Customer) : Nat → List Ticket → Gen (List Ticket)
  | 0, acc => pure acc
  | k + 1, acc => do
      let t ← genTicket now cust (acc.length + 1)
      ticketsForCustomer now cust k (acc ++ [t])

/-- The outer loop of `generate_support_tickets`. -/
def ticketsLoop (now : Int) : List Customer → List Ticket → Gen (List Ticket)
  | [], acc => pure acc
  | cust :: rest, acc => do
      let n ← choicesW [1, 2, 3, 4, 5] [50, 30, 15, 4, 1] 1
      let acc2 ← ticketsForCustomer now cust n acc
      ticketsLoop now rest acc2

/-- Embedding of `generate_support_tickets`: 40% of customers get 1-5 tickets. -/
def generate_support_tickets (now : Int) (customers : List Customer) : Gen (List Ticket) := do
  let withTickets ← sampleFrac (2/5) customers
  ticketsLoop now withTickets []

/-- One survey of `generate_nps_surveys`. -/
def genSurvey (now : Int) (cust : Customer) (sid : Nat) : Gen Survey := do
  let sdate ← dateBetween cust.account_creation_date now
  let score ← choicesW [0, 1, 2, 3, 4, 5, 6, 7, 8, 9, 10] [3, 2, 3, 4, 5, 8, 12, 15, 18, 20, 10] 0
  let rr ← randomFloat
  let fb ← if rr < 3/5 then do
      let nw ← randint 10 30
      let s ← fakeStr ("SENT" ++ toString nw ++ "W")
      pure (some s)
    else
      pure none
  pure { customer_id := cust.customer_id,
         survey_id := ("NPS_") ++ padNum 8 sid,
         survey_date := sdate, nps_score := score,
         category := if score ≥ 9 then ("Promoter") else if score ≥ 7 then ("Passive") else ("Detractor"),
         feedback := fb }

/-- The per-customer inner loop of `generate_nps_surveys`. -/
def surveysForCustomer (now : Int) (cust : Customer) : Nat → List Survey → Gen (List Survey)
  | 0, acc => pure acc
  | k + 1, acc => do
      let s ← genSurvey now cust (acc.length + 1)
      surveysForCustomer now cust k (acc ++ [s])

/-- The outer loop of `generate_nps_surveys`. -/
def surveysLoop (now : Int) : List Customer → List Survey → Gen (List Survey)
  | [], acc => pure acc
  | cust :: rest, acc => do
      let n ← choicesW [1, 2, 3] [60, 30, 10] 1
      let acc2 ← surveysForCustomer now cust n acc
      surveysLoop now rest acc2

/-- Embedding of `generate_nps_surveys`: 30% of customers get 1-3 surveys. -/
def generate_nps_surveys (now : Int) (customers : List Customer) : Gen (List Survey) := do
  let surveyed ← sampleFrac (3/10) customers
  surveysLoop now surveyed []

/-- pandas `idxmax` on survey_date, then `nps_score`: the first survey
holding the maximal date (strict comparison keeps the first maximum). -/
def latestSurvey : List Survey → Option Survey :=
  List.foldl (fun acc s =>
    match acc with
    | none => some s
    | some m => if s.survey_date > m.survey_date then some s else acc) none

/-- Python `max` over a nonempty list of dates, `none` when empty. -/
def maxDate : List Int → Option Int
  | [] => none
  | d :: rest => some (rest.foldl max d)

/-- Mean of a list of rationals (the caller guards emptiness). -/
def meanQ (l : List ℚ) : ℚ := l.sum / (l.length : ℚ)

/-- The body of the `calculate_customer_metrics` loop for one customer.

Two Python behaviours are modelled exactly:
* `monthly_revenue` is a groupby-mean that is NaN for a customer with no
  billing rows; the NaN is modelled as `none` and only replaced by 0
  when the output field is built (the `upsell` comparison `NaN < 100` is
  false, i.e. the `none` branch adds nothing).
* `if latest_nps and latest_nps <= 6` (and the `>= 8` twin) test the
  truthiness of the score first, so a latest score of 0 behaves like a
  missing survey. -/
def customerMetric (now : Int) (services : List Service) (billing : List BillingRow)
    (tickets : List Ticket) (nps : List Survey) (cust : Customer) : Metrics :=
  let cid := cust.customer_id
  let customer_services := services.filter (fun s => s.customer_id = cid)
  let active_services := customer_services.filter (fun s => s.service_status = "Active")
  let customer_billing := billing.filter (fun b => b.customer_id = cid)
  let bill_dates := (customer_billing.map (fun b => b.bill_date)).dedup
  let monthly_revenue? : Option ℚ :=
    if bill_dates.isEmpty then none
    else some (meanQ (bill_dates.map (fun d =>
      ((customer_billing.filter (fun b => b.bill_date = d)).map (fun b => b.amount_due)).sum)))
  let total_revenue := (customer_billing.map (fun b => b.amount_paid)).sum
  let customer_tickets := tickets.filter (fun t => t.customer_id = cid)
  let avg_resolution_time :=
    if customer_tickets.length > 0 then
      meanQ (customer_tickets.map (fun t => t.resolution_time_hours))
    else 0
  let avg_satisfaction :=
    if customer_tickets.length > 0 then
      meanQ (customer_tickets.map (fun t => (t.satisfaction_rating : ℚ)))
    else 5
  let customer_nps := nps.filter (fun s => s.customer_id = cid)
  let latest_nps := (latestSurvey customer_nps).map (fun s => s.nps_score)
  let risk_factors :=
    (if customer_tickets.length > 3 then 20 else 0) +
    (if avg_satisfaction < 3 then 25 else 0) +
    (match latest_nps with
     | some v => if v ≠ 0 ∧ v ≤ 6 then 30 else 0
     | none => 0) +
    (if (customer_billing.filter (fun b =>
          strContains b.payment_status ("Late") || strContains b.payment_status ("Unpaid"))).length > 2
     then 25 else 0)
  let churn_risk := min 100 risk_factors
  let upsell :=
    (if active_services.length < 3 then 30 else 0) +
    (match monthly_revenue? with
     | some v => if v < 100 then 20 else 0
     | none => 0) +
    (if avg_satisfaction ≥ 4 then 25 else 0) +
    (match latest_nps with
     | some v => if v ≠ 0 ∧ v ≥ 8 then 25 else 0
     | none => 0)
  { customer_id := cid,
    total_services := customer_services.length,
    active_services := active_services.length,
    monthly_revenue := match monthly_revenue? with
      | some v => roundTo 2 v
      | none => 0,
    total_lifetime_value := roundTo 2 total_revenue,
    tenure_months := Int.fdiv (now - cust.account_creation_date) 30,
    support_tickets_count := customer_tickets.length,
    avg_resolution_time_hours := roundTo 1 avg_resolution_time,
    avg_satisfaction_rating := roundTo 1 avg_satisfaction,
    latest_nps_score := latest_nps,
    churn_risk_score := churn_risk,
    upsell_score := min 100 upsell,
    last_interaction_date := maxDate (customer_tickets.map (fun t => t.creation_date)) }

/-- Embedding of `calculate_customer_metrics`: one derived row per customer, computed
wholly from the source tables. -/
def calculate_customer_metrics (now : Int) (customers : List Customer) (services : List Service)
    (billing : List BillingRow) (tickets : List Ticket) (nps : List Survey) : List Metrics :=
  customers.map (customerMetric now services billing tickets nps)

deriving instance DecidableEq for Except

/-- The eight output tables of `generate_all_data`. -/
structure Tables where
  customers : List Customer
  plans : List Plan
  services : List Service
  usage : Except String (List UsageRow)
  billing : List BillingRow
  support_tickets : List Ticket
  nps_surveys : List Survey
  customer_metrics : List Metrics
deriving DecidableEq

/-- Embedding of `generate_all_data`: the full pipeline.  It starts from whatever RNG
state it is given — the seeds are set once at module import, not here —
and reads the clock through `now`. -/
def generate_all_data (now : Int) (num_customers : Int) : Gen Tables := do
  let customers ← generate_customer_demographics now num_customers
  let plans := generate_service_plans
  let services ← generate_customer_services now customers plans
  let usage ← generate_usage_data now services
  let billing ← generate_billing_data now services
  let tickets ← generate_support_tickets now customers
  let nps ← generate_nps_surveys now customers
  let metrics := calculate_customer_metrics now customers services billing tickets nps
  pure { customers := customers, plans := plans, services := services,
         usage := usage, billing := billing, support_tickets := tickets,
         nps_surveys := nps, customer_metrics := metrics }

/-- Number of service rows belonging to a customer id. -/
def countCid (l : List Service) (cid : String) : Nat :=
  (l.filter (fun s => s.customer_id = cid)).length

/-- Modelled from the spec: the churn-risk formula as written in the
spec, `+30 if latest NPS <= 6` with no truthiness guard, so a latest
score of 0 also sets the flag.  Kept beside `customerMetric` (which
embeds the code) to compare the two on concrete inputs. -/
def churn_risk_from_spec (ticketCount : Nat) (avgSat : ℚ) (latestNps : Option Nat)
    (lateOrUnpaidCount : Nat) : Nat :=
  min 100 ((if ticketCount > 3 then 20 else 0) +
    (if avgSat < 3 then 25 else 0) +
    (match latestNps with
     | some v => if v ≤ 6 then 30 else 0
     | none => 0) +
    (if lateOrUnpaidCount > 2 then 25 else 0))

/-- A concrete customer row used to evaluate the claims on explicit
inputs. -/
def custA : Customer :=
  { customer_id := "CUST_000001", first_name := "FN1", last_name := "LN1",
    email := "E1", phone_number := "P1", date_of_birth := -9000,
    gender := "Other", address := "A1", city := "C1", state := "S1",
    zip_code := "Z1", country := "USA", account_creation_date := -100,
    customer_segment := "Individual", account_status := "Active",
    preferred_contact_method := "Email", credit_score := 700,
    annual_income := 50000 }

/-- A concrete survey row with the boundary NPS score 0. -/
def surveyZero : Survey :=
  { customer_id := "CUST_000001", survey_id := "NPS_00000001",
    survey_date := -10, nps_score := 0, category := "Detractor",
    feedback := none }

/-- A concrete Active Mobile subscription with an integral fee. -/
def svcActive : Service :=
  { customer_id := "CUST_000001", service_id := "SVC_00000001",
    plan_id := "PLAN_001", plan_name := "Basic Mobile",
    service_type := "Mobile", monthly_fee := 36,
    service_start_date := -50, service_status := "Active",
    auto_pay := true, contract_length := 12, early_termination_fee := 0 }

/-- A concrete Cancelled TV subscription. -/
def svcCancelled : Service :=
  { customer_id := "CUST_000002", service_id := "SVC_00000002",
    plan_id := "PLAN_007", plan_name := "Basic TV",
    service_type := "TV", monthly_fee := 40,
    service_start_date := -40, service_status := "Cancelled",
    auto_pay := false, contract_length := 0, early_termination_fee := 0 }

/-- A default billing row (used only as the `getD` fallback). -/
def billDefault : BillingRow :=
  { customer_id := "", service_id := "", bill_date := 0, due_date := 0,
    amount_due := 0, amount_paid := 0, payment_date := none,
    payment_method := "", payment_status := "", late_fee := 0 }

/-- A default metrics row (used only as the `getD` fallback). -/
def metricsDefault : Metrics :=
  { customer_id := "", total_services := 0, active_services := 0,
    monthly_revenue := 0, total_lifetime_value := 0, tenure_months := 0,
    support_tickets_count := 0, avg_resolution_time_hours := 0,
    avg_satisfaction_rating := 0, latest_nps_score := none,
    churn_risk_score := 0, upsell_score := 0, last_interaction_date := none }

/-- Number of usage rows belonging to a service id. -/
def countSidU (l : List UsageRow) (sid : String) : Nat :=
  (l.filter (fun u => u.service_id = sid)).length

/-- Number of billing rows belonging to a service id. -/
def countSidB (l : List BillingRow) (sid : String) : Nat :=
  (l.filter (fun b => b.service_id = sid)).length

/-- A concrete two-row services table (one Active, one Cancelled). -/
def svsEx : List Service := [svcActive, svcCancelled]

unseal Rat.ofScientific Rat.mul Rat.inv Rat.add Rat.sub

/-- A concrete pseudo-random stream used for concrete evaluations: the
identity stream. -/
def streamId : Nat → Nat := fun n => n

/-- The RNG state right after module import: the (seed-fixed) stream
with the cursor at 0. -/
def rng0 : RNG := ⟨streamId, 0⟩

theorem randint_bounds (a b : Int) (h : a ≤ b) (r : RNG) :
    a ≤ (randint a b r).1 ∧ (randint a b r).1 ≤ b := by
  unfold randint
  simp only [Gen.bind_apply, genMonad, Gen.pure_apply]
  have hne : b - a + 1 ≠ 0 := by omega
  have h1 : 0 ≤ ((nextNat r).1 : Int) % (b - a + 1) := Int.emod_nonneg _ hne
  have h2 : ((nextNat r).1 : Int) % (b - a + 1) < b - a + 1 :=
    Int.emod_lt_of_pos _ (by omega)
  constructor <;> omega

theorem pickWeighted_mem {α : Type} :
    ∀ (xs : List α) (ws : List Nat) (t : Nat) (d : α),
      pickWeighted xs ws t d ∈ xs ∨ pickWeighted xs ws t d = d
  | [], _, _, _ => Or.inr rfl
  | _ :: _, [], _, _ => Or.inr rfl
  | x :: xs, w :: ws, t, d => by
      unfold pickWeighted
      by_cases h : t < w
      · simp [h]
      · simp only [if_neg h]
        rcases pickWeighted_mem xs ws (t - w) d with h2 | h2
        · exact Or.inl (List.mem_cons_of_mem _ h2)
        · exact Or.inr h2

theorem choicesW_mem {α : Type} (xs : List α) (ws : List Nat) (d : α) (hd : d ∈ xs) (r : RNG) :
    ((choicesW xs ws d) r).1 ∈ xs := by
  unfold choicesW
  simp only [Gen.bind_apply, genMonad, Gen.pure_apply]
  rcases pickWeighted_mem xs ws ((nextNat r).1 % ws.sum) d with h | h
  · exact h
  · rw [h]; exact hd

theorem getD_mem {α : Type} (l : List α) (i : Nat) (d : α) (h : i < l.length) :
    l.getD i d ∈ l := by
  rw [List.getD_eq_getElem?_getD, List.getElem?_eq_getElem h]
  exact List.getElem_mem h

theorem sampleK_spec {α : Type} :
    ∀ (k : Nat) (pool : List α) (r : RNG),
      ((sampleK k pool) r).1.length = min k pool.length ∧
      ∀ x ∈ ((sampleK k pool) r).1, x ∈ pool
  | 0, pool, r => by
      constructor
      · simp [sampleK, genMonad, Gen.pure_apply]
      · intro x hx
        simp [sampleK, genMonad, Gen.pure_apply] at hx
  | k + 1, [], r => by
      constructor
      · simp [sampleK, genMonad, Gen.pure_apply]
      · intro x hx
        simp [sampleK, genMonad, Gen.pure_apply] at hx
  | k + 1, p0 :: rest, r => by
      have hlen : (nextNat r).1 % (rest.length + 1) < (p0 :: rest).length := by
        simp only [List.length_cons]
        exact Nat.mod_lt _ (Nat.succ_pos _)
      have herase : ((p0 :: rest).eraseIdx ((nextNat r).1 % (rest.length + 1))).length = rest.length := by
        rw [List.length_eraseIdx_of_lt hlen]
        simp
      have IH := sampleK_spec k ((p0 :: rest).eraseIdx ((nextNat r).1 % (rest.length + 1)))
        (nextNat r).2
      unfold sampleK
      simp only [Gen.bind_apply, genMonad, Gen.bindFn_apply, Gen.pure_apply, List.length_cons]
      constructor
      · simp only [List.length_cons, IH.1, herase]
        omega
      · intro x hx
        rcases List.mem_cons.mp hx with h | h
        · rw [h]; exact getD_mem _ _ _ hlen
        · exact List.eraseIdx_subset _ _ (IH.2 x h)

theorem serviceFromPlan_fields (now : Int) (cust : Customer) (sid : Nat) (p : Plan) (r : RNG) :
    (((serviceFromPlan now cust sid p) r).1.customer_id = cust.customer_id) ∧
    (((serviceFromPlan now cust sid p) r).1.plan_id = p.plan_id) ∧
    (((serviceFromPlan now cust sid p) r).1.service_type = p.service_type) ∧
    (((serviceFromPlan now cust sid p) r).1.monthly_fee = p.monthly_fee) := by
  unfold serviceFromPlan
  simp only [Gen.bind_apply, genMonad, Gen.bindFn_apply, Gen.pure_apply]
  split <;> exact ⟨rfl, rfl, rfl, rfl⟩

theorem servicesForPlans_decomp (now : Int) (cust : Customer) :
    ∀ (ps : List Plan) (acc : List Service) (r : RNG),
      ∃ block, ((servicesForPlans now cust ps acc) r).1 = acc ++ block ∧
        block.length = ps.length ∧
        ∀ s ∈ block, s.customer_id = cust.customer_id ∧
          ∃ p ∈ ps, s.plan_id = p.plan_id ∧ s.service_type = p.service_type ∧
            s.monthly_fee = p.monthly_fee
  | [], acc, r => ⟨[], by simp [servicesForPlans, genMonad, Gen.pure_apply], rfl, by intro s hs; cases hs⟩
  | p :: ps, acc, r => by
      unfold servicesForPlans
      simp only [Gen.bind_apply, genMonad, Gen.bindFn_apply, Gen.pure_apply]
      obtain ⟨block2, heq, hlen, hmem⟩ := servicesForPlans_decomp now cust ps
        (acc ++ [((serviceFromPlan now cust (acc.length + 1) p) r).1])
        ((serviceFromPlan now cust (acc.length + 1) p) r).2
      refine ⟨((serviceFromPlan now cust (acc.length + 1) p) r).1 :: block2, ?_, ?_, ?_⟩
      · rw [heq]
        simp
      · simp [hlen]
      · intro s hs
        rcases List.mem_cons.mp hs with h | h
        · subst h
          obtain ⟨h1, h2, h3, h4⟩ := serviceFromPlan_fields now cust (acc.length + 1) p r
          exact ⟨h1, p, List.mem_cons_self _ _, h2, h3, h4⟩
        · obtain ⟨hcid, q, hq, hrest⟩ := hmem s h
          exact ⟨hcid, q, List.mem_cons_of_mem _ hq, hrest⟩

theorem countCid_append (a b : List Service) (cid : String) :
    countCid (a ++ b) cid = countCid a cid + countCid b cid := by
  unfold countCid
  rw [List.filter_append, List.length_append]

theorem countCid_of_all (block : List Service) (c0 cid : String)
    (hall : ∀ s ∈ block, s.customer_id = c0) :
    countCid block cid = if c0 = cid then block.length else 0 := by
  induction block with
  | nil => simp [countCid]
  | cons s rest ih =>
      have hs := hall s (List.mem_cons_self _ _)
      have ihr := ih (fun x hx => hall x (List.mem_cons_of_mem _ hx))
      unfold countCid at ihr ⊢
      by_cases h : c0 = cid
      · subst h
        simp [List.filter_cons, hs, ihr]
      · have hne : ¬ (s.customer_id = cid) := by rw [hs]; exact h
        simp [List.filter_cons, hne, ihr, h]

theorem segmentPool_subset (seg : String) (plans : List Plan) :
    segmentPool seg plans ⊆ plans := by
  unfold segmentPool
  by_cases h1 : seg = "Enterprise"
  · rw [if_pos h1]; exact List.filter_subset' _
  · rw [if_neg h1]
    by_cases h2 : seg = "Small Business"
    · rw [if_pos h2]; exact List.filter_subset' _
    · rw [if_neg h2]; exact fun x hx => hx

theorem segmentPool_catalog_len (seg : String) :
    4 ≤ (segmentPool seg generate_service_plans).length := by
  unfold segmentPool
  by_cases h1 : seg = "Enterprise"
  · rw [if_pos h1]; decide
  · rw [if_neg h1]
    by_cases h2 : seg = "Small Business"
    · rw [if_pos h2]; decide
    · rw [if_neg h2]; decide

theorem numServices_bounds (r : RNG) :
    1 ≤ ((choicesW [1, 2, 3, 4] [30, 40, 20, 10] 1) r).1 ∧
    ((choicesW [1, 2, 3, 4] [30, 40, 20, 10] 1) r).1 ≤ 4 := by
  have h := choicesW_mem [1, 2, 3, 4] [30, 40, 20, 10] 1 (by simp) r
  simp only [List.mem_cons] at h
  rcases h with h | h | h | h | h
  · omega
  · omega
  · omega
  · omega
  · exact absurd h (List.not_mem_nil _)

theorem customerServicesLoop_spec (now : Int) (plans : List Plan)
    (hpool : ∀ seg, 4 ≤ (segmentPool seg plans).length) :
    ∀ (custs : List Customer) (acc : List Service) (r : RNG),
      (acc.length + custs.length ≤ ((customerServicesLoop now plans custs acc) r).1.length ∧
        ((customerServicesLoop now plans custs acc) r).1.length ≤ acc.length + 4 * custs.length) ∧
      (∀ s ∈ ((customerServicesLoop now plans custs acc) r).1, s ∈ acc ∨
        ((∃ c ∈ custs, s.customer_id = c.customer_id) ∧
         ∃ p ∈ plans, s.plan_id = p.plan_id ∧ s.service_type = p.service_type ∧
           s.monthly_fee = p.monthly_fee)) ∧
      (∀ cid, cid ∉ custs.map (fun c => c.customer_id) →
        countCid ((customerServicesLoop now plans custs acc) r).1 cid = countCid acc cid) ∧
      ((custs.map (fun c => c.customer_id)).Nodup → ∀ c ∈ custs,
        countCid acc c.customer_id + 1 ≤
          countCid ((customerServicesLoop now plans custs acc) r).1 c.customer_id ∧
        countCid ((customerServicesLoop now plans custs acc) r).1 c.customer_id ≤
          countCid acc c.customer_id + 4)
  | [], acc, r => by
      refine ⟨⟨?_, ?_⟩, ?_, ?_, ?_⟩ <;>
        simp [customerServicesLoop, genMonad, Gen.pure_apply]
  | c :: rest, acc, r => by
      unfold customerServicesLoop
      simp only [Gen.bind_apply, genMonad, Gen.bindFn_apply, Gen.pure_apply]
      have hn := numServices_bounds r
      set n := ((choicesW [1, 2, 3, 4] [30, 40, 20, 10] 1) r).1 with hn_def
      set r1 := ((choicesW [1, 2, 3, 4] [30, 40, 20, 10] 1) r).2 with hr1_def
      set pool := segmentPool c.customer_segment plans with hpool_def
      have hsel := sampleK_spec (min n pool.length) pool r1
      set sel := ((sampleK (min n pool.length) pool) r1).1 with hsel_def
      set r2 := ((sampleK (min n pool.length) pool) r1).2 with hr2_def
      obtain ⟨block, hacc2, hblen, hbmem⟩ := servicesForPlans_decomp now c sel acc r2
      set acc2 := ((servicesForPlans now c sel acc) r2).1 with hacc2_def
      set r3 := ((servicesForPlans now c sel acc) r2).2 with hr3_def
      have IH := customerServicesLoop_spec now plans hpool rest acc2 r3
      have hseln : sel.length = n := by
        rw [hsel.1]
        have h4 : 4 ≤ pool.length := hpool c.customer_segment
        omega
      have hacc2len : acc2.length = acc.length + n := by
        rw [hacc2, List.length_append, hblen, hseln]
      have hcount2 : ∀ cid, countCid acc2 cid =
          countCid acc cid + if c.customer_id = cid then n else 0 := by
        intro cid
        rw [hacc2, countCid_append,
          countCid_of_all block c.customer_id cid (fun s hs => (hbmem s hs).1)]
        rw [hblen, hseln]
      refine ⟨⟨?_, ?_⟩, ?_, ?_, ?_⟩
      · have := IH.1.1
        simp only [List.length_cons]
        omega
      · have := IH.1.2
        simp only [List.length_cons]
        omega
      · intro s hs
        rcases IH.2.1 s hs with h | ⟨⟨c2, hc2, hcid⟩, hplan⟩
        · rw [hacc2] at h
          rcases List.mem_append.mp h with h2 | h2
          · exact Or.inl h2
          · obtain ⟨hcid, p, hp, hfields⟩ := hbmem s h2
            refine Or.inr ⟨⟨c, List.mem_cons_self _ _, hcid⟩, p, ?_, hfields⟩
            exact segmentPool_subset _ _ (hsel.2 p hp)
        · exact Or.inr ⟨⟨c2, List.mem_cons_of_mem _ hc2, hcid⟩, hplan⟩
      · intro cid hcid
        simp only [List.map_cons, List.mem_cons] at hcid
        push_neg at hcid
        rw [IH.2.2.1 cid hcid.2, hcount2 cid, if_neg (Ne.symm hcid.1)]
        omega
      · intro hnd c2 hc2
        simp only [List.map_cons, List.nodup_cons] at hnd
        rcases List.mem_cons.mp hc2 with hceq | hc2r
        · subst hceq
          rw [IH.2.2.1 c2.customer_id hnd.1, hcount2 c2.customer_id, if_pos rfl]
          omega
        · have hne : c.customer_id ≠ c2.customer_id := by
            intro heq
            exact hnd.1 (heq ▸ List.mem_map_of_mem (fun x => x.customer_id) hc2r)
          have := IH.2.2.2 hnd.2 c2 hc2r
          rw [hcount2 c2.customer_id, if_neg hne] at this
          omega

theorem catalog_plan_facts : ∀ p ∈ generate_service_plans,
    (p.service_type = "Mobile" ∨ p.service_type = "Internet" ∨ p.service_type = "TV") ∧
    p.plan_id ∈ generate_service_plans.map (fun q => q.plan_id) ∧ 0 ≤ p.monthly_fee := by
  decide

/-- Claim C7: in `generate_customer_services` every customer's
subscription count is `min(sampled 1-4 count, segment pool size)` —
`sampleK` never errors on a small pool — so with the fixed catalog each
customer gets 1 to 4 subscriptions, the total for N customers lies in
[N, 4N], and every subscription's plan_id is a catalog plan_id. -/
theorem c7_subscription_counts (now : Int) (customers : List Customer) (r : RNG)
    (hnd : (customers.map (fun c => c.customer_id)).Nodup) :
    (∀ (k : Nat) (pool : List Plan) (r2 : RNG),
       ((sampleK k pool) r2).1.length = min k pool.length) ∧
    customers.length ≤
      ((generate_customer_services now customers generate_service_plans) r).1.length ∧
    ((generate_customer_services now customers generate_service_plans) r).1.length ≤
      4 * customers.length ∧
    (∀ c ∈ customers,
      1 ≤ countCid ((generate_customer_services now customers generate_service_plans) r).1
            c.customer_id ∧
      countCid ((generate_customer_services now customers generate_service_plans) r).1
            c.customer_id ≤ 4) ∧
    (∀ s ∈ ((generate_customer_services now customers generate_service_plans) r).1,
      s.plan_id ∈ generate_service_plans.map (fun p => p.plan_id)) := by
  have H := customerServicesLoop_spec now generate_service_plans segmentPool_catalog_len
    customers [] r
  unfold generate_customer_services
  refine ⟨fun k pool r2 => (sampleK_spec k pool r2).1, ?_, ?_, ?_, ?_⟩
  · have := H.1.1
    simpa using this
  · have := H.1.2
    simpa using this
  · intro c hc
    have := H.2.2.2 hnd c hc
    simpa [countCid] using this
  · intro s hs
    rcases H.2.1 s hs with h | ⟨_, p, hp, hpid, _⟩
    · cases h
    · rw [hpid]
      exact List.mem_map_of_mem (fun q => q.plan_id) hp

/-- Witness for C7 at a concrete input. -/
theorem c7_subscription_counts_witness :
    (([custA].map (fun c => c.customer_id)).Nodup) ∧
    ((∀ (k : Nat) (pool : List Plan) (r2 : RNG),
       ((sampleK k pool) r2).1.length = min k pool.length) ∧
    [custA].length ≤
      ((generate_customer_services 0 [custA] generate_service_plans) rng0).1.length ∧
    ((generate_customer_services 0 [custA] generate_service_plans) rng0).1.length ≤
      4 * [custA].length ∧
    (∀ c ∈ [custA],
      1 ≤ countCid ((generate_customer_services 0 [custA] generate_service_plans) rng0).1
            c.customer_id ∧
      countCid ((generate_customer_services 0 [custA] generate_service_plans) rng0).1
            c.customer_id ≤ 4) ∧
    (∀ s ∈ ((generate_customer_services 0 [custA] generate_service_plans) rng0).1,
      s.plan_id ∈ generate_service_plans.map (fun p => p.plan_id))) :=
  ⟨by decide, c7_subscription_counts 0 [custA] rng0 (by decide)⟩

theorem usageDispatch_some (now : Int) (sv : Service) (mo : Nat) (r : RNG)
    (h : sv.service_type = "Mobile" ∨ sv.service_type = "Internet" ∨ sv.service_type = "TV") :
    ∃ row, ((usageDispatch now sv mo) r).1 = some row ∧
      row.service_id = sv.service_id ∧ row.customer_id = sv.customer_id := by
  unfold usageDispatch
  rcases h with h | h | h <;> rw [h]
  · rw [if_pos rfl]
    exact ⟨_, rfl, rfl, rfl⟩
  · rw [if_neg (by decide), if_pos rfl]
    exact ⟨_, rfl, rfl, rfl⟩
  · rw [if_neg (by decide), if_neg (by decide), if_pos rfl]
    exact ⟨_, rfl, rfl, rfl⟩

theorem usageRun_ok (now : Int) :
    ∀ (pairs : List (Service × Nat)) (stale : Option UsageRow) (r : RNG),
      (∀ p ∈ pairs, p.1.service_type = "Mobile" ∨ p.1.service_type = "Internet" ∨
        p.1.service_type = "TV") →
      ∃ rows, ((usageRun now pairs stale) r).1 = Except.ok rows ∧
        rows.map (fun u => u.service_id) = pairs.map (fun p => p.1.service_id) ∧
        rows.map (fun u => u.customer_id) = pairs.map (fun p => p.1.customer_id)
  | [], stale, r, _ => ⟨[], by simp [usageRun, genMonad, Gen.pure_apply], rfl, rfl⟩
  | (sv, mo) :: rest, stale, r, hall => by
      obtain ⟨row, hrow, hsid, hcid⟩ := usageDispatch_some now sv mo r
        (hall (sv, mo) (List.mem_cons_self _ _))
      obtain ⟨rows2, hok, hm1, hm2⟩ := usageRun_ok now rest (some row)
        ((usageDispatch now sv mo) r).2
        (fun p hp => hall p (List.mem_cons_of_mem _ hp))
      unfold usageRun
      simp only [Gen.bind_apply, genMonad, Gen.bindFn_apply, Gen.pure_apply]
      rw [hrow]
      simp only [Option.orElse]
      refine ⟨row :: rows2, ?_, ?_, ?_⟩
      · simp only [Gen.bind_apply, genMonad, Gen.bindFn_apply, Gen.pure_apply]
        rw [hok]
        rfl
      · simp [hm1, hsid]
      · simp [hm2, hcid]

theorem genBillRow_ids (now : Int) (sv : Service) (mo : Nat) (r : RNG) :
    (((genBillRow now sv mo) r).1.service_id = sv.service_id) ∧
    (((genBillRow now sv mo) r).1.customer_id = sv.customer_id) := by
  unfold genBillRow
  simp only [Gen.bind_apply, genMonad, Gen.bindFn_apply, Gen.pure_apply]
  repeat' split
  all_goals simp only [Gen.bind_apply, genMonad, Gen.bindFn_apply, Gen.pure_apply]
  all_goals trivial

theorem billingMonths_sids (now : Int) (sv : Service) :
    ∀ (k : Nat) (r : RNG),
      ((billingMonths now sv k) r).1.map (fun b => b.service_id) =
        List.replicate k sv.service_id
  | 0, r => by simp [billingMonths, genMonad, Gen.pure_apply]
  | k + 1, r => by
      unfold billingMonths
      simp only [Gen.bind_apply, genMonad, Gen.bindFn_apply, Gen.pure_apply, List.map_cons]
      rw [(genBillRow_ids now sv (12 - (k + 1)) r).1,
        billingMonths_sids now sv k ((genBillRow now sv (12 - (k + 1))) r).2]
      rfl

theorem billing_sids (now : Int) :
    ∀ (svs : List Service) (r : RNG),
      ((generate_billing_data now svs) r).1.map (fun b => b.service_id) =
        svs.flatMap (fun sv => List.replicate 12 sv.service_id)
  | [], r => by simp [generate_billing_data, genMonad, Gen.pure_apply]
  | sv :: rest, r => by
      unfold generate_billing_data
      simp only [Gen.bind_apply, genMonad, Gen.bindFn_apply, Gen.pure_apply, List.map_append]
      rw [billingMonths_sids now sv 12 r,
        billing_sids now rest ((billingMonths now sv 12) r).2]
      simp [List.flatMap_cons]

theorem pairs_sids (svs : List Service) :
    (activeMonthPairs svs).map (fun p => p.1.service_id) =
      svs.flatMap (fun sv =>
        List.replicate (if sv.service_status = "Active" then 12 else 0) sv.service_id) := by
  unfold activeMonthPairs
  induction svs with
  | nil => simp
  | cons sv rest ih =>
      simp only [List.flatMap_cons, List.map_append, ih]
      by_cases h : sv.service_status = "Active"
      · have hcomp : ((fun p : Service × Nat => p.1.service_id) ∘ fun mo => (sv, mo)) =
            (fun _ : Nat => sv.service_id) := rfl
        simp [h, List.map_map, hcomp, List.map_const', List.length_range]
      · simp [h]

theorem flatRep_count_notmem (f : Service → Nat) :
    ∀ (svs : List Service) (sid : String),
      sid ∉ svs.map (fun v => v.service_id) →
      ((svs.flatMap (fun sv => List.replicate (f sv) sv.service_id)).filter
        (fun x => x = sid)).length = 0
  | [], sid, _ => rfl
  | sv :: rest, sid, h => by
      simp only [List.map_cons, List.mem_cons] at h
      push_neg at h
      simp only [List.flatMap_cons, List.filter_append, List.length_append]
      rw [List.filter_replicate_of_neg (by simpa using Ne.symm h.1),
        flatRep_count_notmem f rest sid h.2]
      simp

theorem flatRep_count (f : Service → Nat) :
    ∀ (svs : List Service) (s : Service), s ∈ svs →
      (svs.map (fun v => v.service_id)).Nodup →
      ((svs.flatMap (fun sv => List.replicate (f sv) sv.service_id)).filter
        (fun x => x = s.service_id)).length = f s
  | [], s, hs, _ => absurd hs (List.not_mem_nil _)
  | sv :: rest, s, hs, hnd => by
      simp only [List.map_cons, List.nodup_cons] at hnd
      simp only [List.flatMap_cons, List.filter_append, List.length_append]
      rcases List.mem_cons.mp hs with h | h
      · subst h
        rw [List.filter_replicate_of_pos (by simp), flatRep_count_notmem f rest _ hnd.1,
          List.length_replicate]
        simp
      · have hne : sv.service_id ≠ s.service_id := by
          intro heq
          exact hnd.1 (heq ▸ List.mem_map_of_mem (fun v => v.service_id) h)
        rw [List.filter_replicate_of_neg (by simpa using hne),
          flatRep_count f rest s h hnd.2]
        simp

theorem countSid_via_map_u (l : List UsageRow) (sid : String) :
    countSidU l sid = ((l.map (fun u => u.service_id)).filter (fun x => x = sid)).length := by
  unfold countSidU
  rw [List.filter_map]
  rw [List.length_map]
  rfl

theorem countSid_via_map_b (l : List BillingRow) (sid : String) :
    countSidB l sid = ((l.map (fun b => b.service_id)).filter (fun x => x = sid)).length := by
  unfold countSidB
  rw [List.filter_map]
  rw [List.length_map]
  rfl

theorem generated_services_types (now : Int) (customers : List Customer) (r : RNG) :
    ∀ sv ∈ ((generate_customer_services now customers generate_service_plans) r).1,
      sv.service_type = "Mobile" ∨ sv.service_type = "Internet" ∨ sv.service_type = "TV" := by
  intro sv hsv
  have H := customerServicesLoop_spec now generate_service_plans segmentPool_catalog_len
    customers [] r
  rcases H.2.1 sv hsv with h | ⟨_, p, hp, _, htype, _⟩
  · cases h
  · rw [htype]
    exact (catalog_plan_facts p hp).1

theorem activeMonthPairs_fst_mem (svs : List Service) (p : Service × Nat)
    (hp : p ∈ activeMonthPairs svs) : p.1 ∈ svs := by
  unfold activeMonthPairs at hp
  obtain ⟨sv, hsv, hmem⟩ := List.mem_flatMap.mp hp
  by_cases h : sv.service_status = "Active"
  · rw [if_pos h] at hmem
    obtain ⟨mo, _, heq⟩ := List.mem_map.mp hmem
    rw [← heq]
    exact hsv
  · rw [if_neg h] at hmem
    cases hmem

/-- Claim C10: every subscription produced by `generate_customer_services`
from the fixed catalog has service_type Mobile, Internet or TV, so the
string dispatch in `generate_usage_data` is exhaustive: the run returns
`ok` (the unbound/stale `usage` fall-through is unreachable) and appends
exactly one freshly built row per Active-subscription month, each row
carrying its own pair's service_id. -/
theorem c10_usage_dispatch_exhaustive (now : Int) (customers : List Customer)
    (r1 : RNG) (svs : List Service)
    (hsvs : svs = ((generate_customer_services now customers generate_service_plans) r1).1) :
    (∀ sv ∈ svs, sv.service_type = "Mobile" ∨ sv.service_type = "Internet" ∨
      sv.service_type = "TV") ∧
    ∀ r2 : RNG, ((generate_usage_data now svs) r2).1 =
        Except.ok (usageRows ((generate_usage_data now svs) r2).1) ∧
      (usageRows ((generate_usage_data now svs) r2).1).length =
        (activeMonthPairs svs).length ∧
      (usageRows ((generate_usage_data now svs) r2).1).map (fun u => u.service_id) =
        (activeMonthPairs svs).map (fun p => p.1.service_id) := by
  subst hsvs
  have htypes := generated_services_types now customers r1
  refine ⟨htypes, fun r2 => ?_⟩
  obtain ⟨rows, hok, hm1, hm2⟩ := usageRun_ok now (activeMonthPairs _) none r2
    (fun p hp => htypes p.1 (activeMonthPairs_fst_mem _ p hp))
  unfold generate_usage_data
  rw [hok]
  simp only [usageRows]
  refine ⟨trivial, ?_, hm1⟩
  rw [← List.length_map rows (fun u => u.service_id), hm1, List.length_map]

/-- Witness for C10 at a concrete input. -/
theorem c10_usage_dispatch_exhaustive_witness :
    (∀ sv ∈ ((generate_customer_services 0 [custA] generate_service_plans) rng0).1,
      sv.service_type = "Mobile" ∨ sv.service_type = "Internet" ∨
      sv.service_type = "TV") ∧
    ∀ r2 : RNG, ((generate_usage_data 0
        ((generate_customer_services 0 [custA] generate_service_plans) rng0).1) r2).1 =
        Except.ok (usageRows ((generate_usage_data 0
          ((generate_customer_services 0 [custA] generate_service_plans) rng0).1) r2).1) ∧
      (usageRows ((generate_usage_data 0
          ((generate_customer_services 0 [custA] generate_service_plans) rng0).1) r2).1).length =
        (activeMonthPairs
          ((generate_customer_services 0 [custA] generate_service_plans) rng0).1).length ∧
      (usageRows ((generate_usage_data 0
          ((generate_customer_services 0 [custA] generate_service_plans) rng0).1) r2).1).map
          (fun u => u.service_id) =
        (activeMonthPairs
          ((generate_customer_services 0 [custA] generate_service_plans) rng0).1).map
          (fun p => p.1.service_id) :=
  c10_usage_dispatch_exhaustive 0 [custA] rng0 _ rfl

/-- Claim C4: with distinct service ids and catalog service types, an
Active subscription gets exactly 12 usage rows and a non-Active one gets
0, while every subscription gets exactly 12 billing rows. -/
theorem c4_monthly_row_counts (now : Int) (svs : List Service) (r1 r2 : RNG) (s : Service)
    (hs : s ∈ svs) (hnd : (svs.map (fun v => v.service_id)).Nodup)
    (htype : ∀ sv ∈ svs, sv.service_type = "Mobile" ∨ sv.service_type = "Internet" ∨
      sv.service_type = "TV") :
    exceptOk ((generate_usage_data now svs) r1).1 = true ∧
    countSidU (usageRows ((generate_usage_data now svs) r1).1) s.service_id =
      (if s.service_status = "Active" then 12 else 0) ∧
    countSidB (((generate_billing_data now svs) r2).1) s.service_id = 12 := by
  obtain ⟨rows, hok, hm1, hm2⟩ := usageRun_ok now (activeMonthPairs svs) none r1
    (fun p hp => htype p.1 (activeMonthPairs_fst_mem _ p hp))
  unfold generate_usage_data
  rw [hok]
  refine ⟨rfl, ?_, ?_⟩
  · simp only [usageRows]
    rw [countSid_via_map_u, hm1, pairs_sids]
    exact flatRep_count (fun sv => if sv.service_status = "Active" then 12 else 0) svs s hs hnd
  · rw [countSid_via_map_b, billing_sids]
    exact flatRep_count (fun _ => 12) svs s hs hnd

/-- Witness for C4 at a concrete input. -/
theorem c4_monthly_row_counts_witness :
    svcActive ∈ svsEx ∧
    ((svsEx.map (fun v => v.service_id)).Nodup) ∧
    (∀ sv ∈ svsEx, sv.service_type = "Mobile" ∨ sv.service_type = "Internet" ∨
      sv.service_type = "TV") ∧
    (exceptOk ((generate_usage_data 0 svsEx) rng0).1 = true ∧
    countSidU (usageRows ((generate_usage_data 0 svsEx) rng0).1) svcActive.service_id =
      (if svcActive.service_status = "Active" then 12 else 0) ∧
    countSidB (((generate_billing_data 0 svsEx) rng0).1) svcActive.service_id = 12) :=
  ⟨by decide, by decide, by decide,
    c4_monthly_row_counts 0 svsEx rng0 rng0 svcActive (by decide) (by decide) (by decide)⟩

theorem randomFloat_bounds (r : RNG) : 0 ≤ (randomFloat r).1 ∧ (randomFloat r).1 < 1 := by
  unfold randomFloat
  simp only [Gen.bind_apply, genMonad, Gen.bindFn_apply, Gen.pure_apply]
  constructor
  · exact div_nonneg (Nat.cast_nonneg _) (by norm_num)
  · rw [div_lt_one (by norm_num)]
    exact_mod_cast Nat.mod_lt (nextNat r).1 (by norm_num)

theorem uniformQ_ge (a b : ℚ) (h : a ≤ b) (r : RNG) : a ≤ (uniformQ a b r).1 := by
  unfold uniformQ
  simp only [Gen.bind_apply, genMonad, Gen.bindFn_apply, Gen.pure_apply]
  have h0 := (randomFloat_bounds r).1
  nlinarith [mul_nonneg (sub_nonneg.mpr h) h0]

theorem roundHalfEven_ge_floor (q : ℚ) : ⌊q⌋ ≤ roundHalfEven q := by
  unfold roundHalfEven
  dsimp only
  repeat' split
  all_goals omega

theorem roundTo_two_pos (q : ℚ) (h : 2 ≤ q) : 0 < roundTo 2 q := by
  unfold roundTo
  have h1 : (1 : ℤ) ≤ ⌊q * (10 : ℚ) ^ 2⌋ := by
    rw [Int.le_floor]
    push_cast
    nlinarith
  have h2 := roundHalfEven_ge_floor (q * (10 : ℚ) ^ 2)
  apply div_pos
  · exact_mod_cast lt_of_lt_of_le Int.zero_lt_one (le_trans h1 h2)
  · norm_num

theorem paymentDateFor_spec (status : String) (dd : Int) (r : RNG) :
    (status = "Paid" → ∃ x, ((paymentDateFor status dd) r).1 = some x ∧
      dd ≤ x + 5 ∧ x ≤ dd + 5) ∧
    (status = "Late" → ∃ x, ((paymentDateFor status dd) r).1 = some x ∧
      dd + 1 ≤ x ∧ x ≤ dd + 15) ∧
    (status ≠ "Paid" → status ≠ "Late" → ((paymentDateFor status dd) r).1 = none) := by
  unfold paymentDateFor
  refine ⟨?_, ?_, ?_⟩
  · intro h
    rw [if_pos h]
    simp only [Gen.bind_apply, genMonad, Gen.bindFn_apply, Gen.pure_apply]
    have hbd := randint_bounds (-5) 5 (by norm_num) r
    exact ⟨dd + ((randint (-5) 5) r).1, rfl, by omega, by omega⟩
  · intro h
    have hne : ¬ (status = "Paid") := by rw [h]; decide
    rw [if_neg hne, if_pos h]
    simp only [Gen.bind_apply, genMonad, Gen.bindFn_apply, Gen.pure_apply]
    have hbd := randint_bounds 1 15 (by norm_num) r
    exact ⟨dd + ((randint 1 15) r).1, rfl, by omega, by omega⟩
  · intro h1 h2
    rw [if_neg h1, if_neg h2]
    rfl

theorem billRowOf_payment (sv : Service) (bd dd : Int) (total : ℚ) (status : String)
    (pd : Option Int) (pm : String)
    (hpd1 : status = "Paid" → ∃ x, pd = some x ∧ dd ≤ x + 5 ∧ x ≤ dd + 5)
    (hpd2 : status = "Late" → ∃ x, pd = some x ∧ dd + 1 ≤ x ∧ x ≤ dd + 15)
    (hpd3 : status ≠ "Paid" → status ≠ "Late" → pd = none) :
    ((billRowOf sv bd dd total status pd pm).payment_status = "Paid" →
      ∃ x, (billRowOf sv bd dd total status pd pm).payment_date = some x ∧
        (billRowOf sv bd dd total status pd pm).due_date ≤ x + 5 ∧
        x ≤ (billRowOf sv bd dd total status pd pm).due_date + 5) ∧
    ((billRowOf sv bd dd total status pd pm).payment_status = "Late" →
      ∃ x, (billRowOf sv bd dd total status pd pm).payment_date = some x ∧
        (billRowOf sv bd dd total status pd pm).due_date + 1 ≤ x ∧
        x ≤ (billRowOf sv bd dd total status pd pm).due_date + 15) ∧
    ((billRowOf sv bd dd total status pd pm).payment_status = "Unpaid" →
      (billRowOf sv bd dd total status pd pm).payment_date = none) ∧
    ((billRowOf sv bd dd total status pd pm).late_fee = 25 ↔
      (billRowOf sv bd dd total status pd pm).payment_status = "Late") := by
  refine ⟨hpd1, hpd2, ?_, ?_⟩
  · intro h
    have hu : status = "Unpaid" := h
    exact hpd3 (by rw [hu]; decide) (by rw [hu]; decide)
  · show (if status = "Late" then (25 : ℚ) else 0) = 25 ↔ status = "Late"
    by_cases hl : status = "Late"
    · simp [hl]
    · simp [hl]

theorem billRowOf_amount (sv : Service) (bd dd : Int) (total : ℚ) (status : String)
    (pd : Option Int) (pm : String) (htot : 2 ≤ total) :
    0 < (billRowOf sv bd dd total status pd pm).amount_due ∧
    (billRowOf sv bd dd total status pd pm).amount_paid =
      (if ((billRowOf sv bd dd total status pd pm).payment_status = "Paid" ∨
           (billRowOf sv bd dd total status pd pm).payment_status = "Late")
       then (billRowOf sv bd dd total status pd pm).amount_due else 0) :=
  ⟨roundTo_two_pos total htot, rfl⟩

theorem t1_extra_ge (t1 : ℚ) (ht1 : 2 ≤ t1) (x : RNG) :
    2 ≤ t1 + ((uniformQ 10 50) x).1 := by
  have := uniformQ_ge 10 50 (by norm_num) x
  linarith

theorem genBillRow_payment (now : Int) (sv : Service) (mo : Nat) (r : RNG) :
    (((genBillRow now sv mo) r).1.payment_status = "Paid" →
      ∃ x, ((genBillRow now sv mo) r).1.payment_date = some x ∧
        ((genBillRow now sv mo) r).1.due_date ≤ x + 5 ∧
        x ≤ ((genBillRow now sv mo) r).1.due_date + 5) ∧
    (((genBillRow now sv mo) r).1.payment_status = "Late" →
      ∃ x, ((genBillRow now sv mo) r).1.payment_date = some x ∧
        ((genBillRow now sv mo) r).1.due_date + 1 ≤ x ∧
        x ≤ ((genBillRow now sv mo) r).1.due_date + 15) ∧
    (((genBillRow now sv mo) r).1.payment_status = "Unpaid" →
      ((genBillRow now sv mo) r).1.payment_date = none) ∧
    (((genBillRow now sv mo) r).1.late_fee = 25 ↔
      ((genBillRow now sv mo) r).1.payment_status = "Late") := by
  unfold genBillRow
  simp only [Gen.bind_apply, genMonad, Gen.bindFn_apply, Gen.pure_apply]
  split <;> simp only [Gen.bind_apply, genMonad, Gen.bindFn_apply, Gen.pure_apply] <;>
    exact billRowOf_payment _ _ _ _ _ _ _
      (paymentDateFor_spec _ _ _).1 (paymentDateFor_spec _ _ _).2.1
      (paymentDateFor_spec _ _ _).2.2

theorem genBillRow_amount (now : Int) (sv : Service) (mo : Nat) (r : RNG)
    (hfee : 0 ≤ sv.monthly_fee) :
    0 < ((genBillRow now sv mo) r).1.amount_due ∧
    ((genBillRow now sv mo) r).1.amount_paid =
      (if (((genBillRow now sv mo) r).1.payment_status = "Paid" ∨
           ((genBillRow now sv mo) r).1.payment_status = "Late")
       then ((genBillRow now sv mo) r).1.amount_due else 0) := by
  unfold genBillRow
  simp only [Gen.bind_apply, genMonad, Gen.bindFn_apply, Gen.pure_apply]
  have ht1 : 2 ≤ sv.monthly_fee + sv.monthly_fee * (8/100) + ((uniformQ 2 8) r).1 := by
    nlinarith [uniformQ_ge 2 8 (by norm_num) r]
  split
  · simp only [Gen.bind_apply, genMonad, Gen.bindFn_apply, Gen.pure_apply]
    exact billRowOf_amount _ _ _ _ _ _ _ (t1_extra_ge _ ht1 _)
  · simp only [Gen.bind_apply, genMonad, Gen.bindFn_apply, Gen.pure_apply]
    exact billRowOf_amount _ _ _ _ _ _ _ ht1

theorem billingMonths_mem (now : Int) (sv : Service) :
    ∀ (k : Nat) (r : RNG) (b : BillingRow), b ∈ ((billingMonths now sv k) r).1 →
      ∃ (mo : Nat) (r2 : RNG), b = ((genBillRow now sv mo) r2).1
  | 0, r, b, hb => by simp [billingMonths, genMonad, Gen.pure_apply] at hb
  | k + 1, r, b, hb => by
      unfold billingMonths at hb
      simp only [Gen.bind_apply, genMonad, Gen.bindFn_apply, Gen.pure_apply] at hb
      rcases List.mem_cons.mp hb with h | h
      · exact ⟨12 - (k + 1), r, h⟩
      · exact billingMonths_mem now sv k _ b h

theorem generate_billing_data_mem (now : Int) :
    ∀ (svs : List Service) (r : RNG) (b : BillingRow),
      b ∈ ((generate_billing_data now svs) r).1 →
      ∃ sv ∈ svs, ∃ (mo : Nat) (r2 : RNG), b = ((genBillRow now sv mo) r2).1
  | [], r, b, hb => by simp [generate_billing_data, genMonad, Gen.pure_apply] at hb
  | sv :: rest, r, b, hb => by
      unfold generate_billing_data at hb
      simp only [Gen.bind_apply, genMonad, Gen.bindFn_apply, Gen.pure_apply] at hb
      rcases List.mem_append.mp hb with h | h
      · obtain ⟨mo, r2, h2⟩ := billingMonths_mem now sv 12 r b h
        exact ⟨sv, List.mem_cons_self _ _, mo, r2, h2⟩
      · obtain ⟨sv2, hsv2, hrest⟩ := generate_billing_data_mem now rest _ b h
        exact ⟨sv2, List.mem_cons_of_mem _ hsv2, hrest⟩

/-- Claim C6: in every generated billing row, a Paid payment date lies
within 5 days of the due date (inclusive both sides), a Late payment
date is strictly after the due date by 1 to 15 days, an Unpaid row has
no payment date, and the late fee is 25.0 exactly when the status is
Late. -/
theorem c6_payment_rules (now : Int) (svs : List Service) (r : RNG) (b : BillingRow)
    (hb : b ∈ ((generate_billing_data now svs) r).1) :
    (b.payment_status = "Paid" → ∃ x, b.payment_date = some x ∧
      b.due_date ≤ x + 5 ∧ x ≤ b.due_date + 5) ∧
    (b.payment_status = "Late" → ∃ x, b.payment_date = some x ∧
      b.due_date + 1 ≤ x ∧ x ≤ b.due_date + 15) ∧
    (b.payment_status = "Unpaid" → b.payment_date = none) ∧
    (b.late_fee = 25 ↔ b.payment_status = "Late") := by
  obtain ⟨sv, hsv, mo, r2, hb2⟩ := generate_billing_data_mem now svs r b hb
  subst hb2
  exact genBillRow_payment now sv mo r2

/-- Witness for C6 at a concrete input. -/
theorem c6_payment_rules_witness :
    ((((generate_billing_data 0 svsEx) rng0).1.getD 0 billDefault) ∈
      ((generate_billing_data 0 svsEx) rng0).1) ∧
    ((((generate_billing_data 0 svsEx) rng0).1.getD 0 billDefault).payment_status = "Paid" →
      ∃ x, (((generate_billing_data 0 svsEx) rng0).1.getD 0 billDefault).payment_date = some x ∧
        (((generate_billing_data 0 svsEx) rng0).1.getD 0 billDefault).due_date ≤ x + 5 ∧
        x ≤ (((generate_billing_data 0 svsEx) rng0).1.getD 0 billDefault).due_date + 5) ∧
    ((((generate_billing_data 0 svsEx) rng0).1.getD 0 billDefault).payment_status = "Late" →
      ∃ x, (((generate_billing_data 0 svsEx) rng0).1.getD 0 billDefault).payment_date = some x ∧
        (((generate_billing_data 0 svsEx) rng0).1.getD 0 billDefault).due_date + 1 ≤ x ∧
        x ≤ (((generate_billing_data 0 svsEx) rng0).1.getD 0 billDefault).due_date + 15) ∧
    ((((generate_billing_data 0 svsEx) rng0).1.getD 0 billDefault).payment_status = "Unpaid" →
      (((generate_billing_data 0 svsEx) rng0).1.getD 0 billDefault).payment_date = none) ∧
    ((((generate_billing_data 0 svsEx) rng0).1.getD 0 billDefault).late_fee = 25 ↔
      (((generate_billing_data 0 svsEx) rng0).1.getD 0 billDefault).payment_status = "Late") :=
  have hmem : (((generate_billing_data 0 svsEx) rng0).1.getD 0 billDefault) ∈
      ((generate_billing_data 0 svsEx) rng0).1 :=
    getD_mem _ _ _ (by decide)
  ⟨hmem, c6_payment_rules 0 svsEx rng0 _ hmem⟩

theorem paid_sum_eq (l : List BillingRow)
    (h : ∀ b ∈ l, b.amount_paid =
      (if (b.payment_status = "Paid" ∨ b.payment_status = "Late") then b.amount_due else 0)) :
    (l.map (fun b => b.amount_paid)).sum =
      ((l.filter (fun b => b.payment_status = "Paid" ∨ b.payment_status = "Late")).map
        (fun b => b.amount_due)).sum := by
  induction l with
  | nil => rfl
  | cons b rest ih =>
      have hb := h b (List.mem_cons_self _ _)
      have ihr := ih (fun x hx => h x (List.mem_cons_of_mem _ hx))
      by_cases hp : (b.payment_status = "Paid" ∨ b.payment_status = "Late")
      · simp [List.filter_cons, hp, ihr, hb]
      · simp [List.filter_cons, hp, ihr, hb]

theorem customerMetric_tlv (now : Int) (services : List Service) (billing : List BillingRow)
    (tickets : List Ticket) (nps : List Survey) (cust : Customer) :
    (customerMetric now services billing tickets nps cust).total_lifetime_value =
      roundTo 2 (((billing.filter (fun b => b.customer_id = cust.customer_id)).map
        (fun b => b.amount_paid)).sum) := rfl

/-- Claim C9: in every generated billing row, amount_paid equals
amount_due exactly when the status is Paid or Late and is 0 when Unpaid
(amount_due is always positive), so `total_lifetime_value` counts Late
bills at their full amount, the same as Paid bills. -/
theorem c9_amount_paid (now : Int) (svs : List Service) (r : RNG)
    (hfee : ∀ sv ∈ svs, 0 ≤ sv.monthly_fee) :
    (∀ b ∈ ((generate_billing_data now svs) r).1, 0 < b.amount_due ∧
      (b.amount_paid = b.amount_due ↔
        (b.payment_status = "Paid" ∨ b.payment_status = "Late")) ∧
      (b.payment_status = "Unpaid" → b.amount_paid = 0)) ∧
    ∀ (services2 : List Service) (tickets : List Ticket) (nps : List Survey) (cust : Customer),
      (customerMetric now services2 ((generate_billing_data now svs) r).1 tickets nps
          cust).total_lifetime_value =
        roundTo 2 (((((generate_billing_data now svs) r).1.filter
          (fun b => b.customer_id = cust.customer_id)).filter
          (fun b => b.payment_status = "Paid" ∨ b.payment_status = "Late")).map
          (fun b => b.amount_due)).sum := by
  have hrow : ∀ b ∈ ((generate_billing_data now svs) r).1, 0 < b.amount_due ∧
      b.amount_paid = (if (b.payment_status = "Paid" ∨ b.payment_status = "Late")
        then b.amount_due else 0) := by
    intro b hb
    obtain ⟨sv, hsv, mo, r2, hb2⟩ := generate_billing_data_mem now svs r b hb
    subst hb2
    exact genBillRow_amount now sv mo r2 (hfee sv hsv)
  constructor
  · intro b hb
    obtain ⟨hpos, hpaid⟩ := hrow b hb
    refine ⟨hpos, ?_, ?_⟩
    · constructor
      · intro heq
        by_contra hcon
        rw [if_neg hcon] at hpaid
        rw [hpaid] at heq
        exact absurd heq.symm (ne_of_gt hpos)
      · intro hp
        rw [hpaid, if_pos hp]
    · intro hu
      have hnp : ¬ (b.payment_status = "Paid" ∨ b.payment_status = "Late") := by
        rw [hu]
        decide
      rw [hpaid, if_neg hnp]
  · intro services2 tickets nps cust
    rw [customerMetric_tlv]
    congr 1
    exact paid_sum_eq _ (fun b hb =>
      (hrow b (List.mem_of_mem_filter hb)).2)

/-- Witness for C9 at a concrete input. -/
theorem c9_amount_paid_witness :
    (∀ sv ∈ svsEx, 0 ≤ sv.monthly_fee) ∧
    ((∀ b ∈ ((generate_billing_data 0 svsEx) rng0).1, 0 < b.amount_due ∧
      (b.amount_paid = b.amount_due ↔
        (b.payment_status = "Paid" ∨ b.payment_status = "Late")) ∧
      (b.payment_status = "Unpaid" → b.amount_paid = 0)) ∧
    ∀ (services2 : List Service) (tickets : List Ticket) (nps : List Survey) (cust : Customer),
      (customerMetric 0 services2 ((generate_billing_data 0 svsEx) rng0).1 tickets nps
          cust).total_lifetime_value =
        roundTo 2 (((((generate_billing_data 0 svsEx) rng0).1.filter
          (fun b => b.customer_id = cust.customer_id)).filter
          (fun b => b.payment_status = "Paid" ∨ b.payment_status = "Late")).map
          (fun b => b.amount_due)).sum) :=
  ⟨by decide, c9_amount_paid 0 svsEx rng0 (by decide)⟩

/-- Claim C8: churn_risk_score and upsell_score lie in [0, 100] for
every customer-metrics row. -/
theorem c8_scores_bounded (now : Int) (customers : List Customer) (services : List Service)
    (billing : List BillingRow) (tickets : List Ticket) (nps : List Survey) (m : Metrics)
    (hm : m ∈ calculate_customer_metrics now customers services billing tickets nps) :
    (0 ≤ m.churn_risk_score ∧ m.churn_risk_score ≤ 100) ∧
    (0 ≤ m.upsell_score ∧ m.upsell_score ≤ 100) := by
  obtain ⟨cust, hcust, hm2⟩ := List.mem_map.mp hm
  subst hm2
  exact ⟨⟨Nat.zero_le _, Nat.min_le_left _ _⟩, ⟨Nat.zero_le _, Nat.min_le_left _ _⟩⟩

/-- Witness for C8 at a concrete input. -/
theorem c8_scores_bounded_witness :
    ((calculate_customer_metrics 0 [custA] [] [] [] []).getD 0 metricsDefault ∈
      calculate_customer_metrics 0 [custA] [] [] [] []) ∧
    ((0 ≤ ((calculate_customer_metrics 0 [custA] [] [] [] []).getD 0
        metricsDefault).churn_risk_score ∧
      ((calculate_customer_metrics 0 [custA] [] [] [] []).getD 0
        metricsDefault).churn_risk_score ≤ 100) ∧
    (0 ≤ ((calculate_customer_metrics 0 [custA] [] [] [] []).getD 0
        metricsDefault).upsell_score ∧
      ((calculate_customer_metrics 0 [custA] [] [] [] []).getD 0
        metricsDefault).upsell_score ≤ 100)) :=
  have hmem : (calculate_customer_metrics 0 [custA] [] [] [] []).getD 0 metricsDefault ∈
      calculate_customer_metrics 0 [custA] [] [] [] [] :=
    getD_mem _ _ _ (by decide)
  ⟨hmem, c8_scores_bounded 0 [custA] [] [] [] [] _ hmem⟩

/-- Claim C5: a customer with no ticket rows gets the documented
defaults `avg_satisfaction_rating = 5` and
`avg_resolution_time_hours = 0`, a customer with no billing rows gets
`monthly_revenue = 0`, and the row so computed is (not a NaN and not an
error but) an ordinary row of the metrics table. -/
theorem c5_empty_group_defaults (now : Int) (customers : List Customer)
    (services : List Service) (billing : List BillingRow) (tickets : List Ticket)
    (nps : List Survey) (cust : Customer) (hc : cust ∈ customers) :
    ((tickets.filter (fun t => t.customer_id = cust.customer_id)) = [] →
      (customerMetric now services billing tickets nps cust).avg_satisfaction_rating = 5 ∧
      (customerMetric now services billing tickets nps cust).avg_resolution_time_hours = 0) ∧
    ((billing.filter (fun b => b.customer_id = cust.customer_id)) = [] →
      (customerMetric now services billing tickets nps cust).monthly_revenue = 0) ∧
    customerMetric now services billing tickets nps cust ∈
      calculate_customer_metrics now customers services billing tickets nps := by
  refine ⟨?_, ?_, List.mem_map_of_mem _ hc⟩
  · intro ht
    constructor
    · simp only [customerMetric, ht]
      norm_num
      decide
    · simp only [customerMetric, ht]
      norm_num
      decide
  · intro hb
    simp only [customerMetric, hb]
    norm_num

/-- Witness for C5 at a concrete input. -/
theorem c5_empty_group_defaults_witness :
    custA ∈ [custA] ∧
    ((([] : List Ticket).filter (fun t => t.customer_id = custA.customer_id) = [] →
      (customerMetric 0 [] [] [] [] custA).avg_satisfaction_rating = 5 ∧
      (customerMetric 0 [] [] [] [] custA).avg_resolution_time_hours = 0) ∧
    (([] : List BillingRow).filter (fun b => b.customer_id = custA.customer_id) = [] →
      (customerMetric 0 [] [] [] [] custA).monthly_revenue = 0) ∧
    customerMetric 0 [] [] [] [] custA ∈ calculate_customer_metrics 0 [custA] [] [] [] []) :=
  ⟨List.mem_cons_self _ _, c5_empty_group_defaults 0 [custA] [] [] [] [] custA
    (List.mem_cons_self _ _)⟩

set_option maxRecDepth 10000

/-- Claim C2 (code behaviour at the failing input): for a customer whose
latest NPS score is 0, the Python guard `if latest_nps and
latest_nps <= 6` is falsy, so the code adds no +30 flag and computes a
churn score of 0, while the spec formula (+30 whenever latest NPS ≤ 6,
a score of 0 included) gives 30. -/
theorem c2_nps_zero_flag_dropped :
    (customerMetric 0 [] [] [] [surveyZero] custA).latest_nps_score = some 0 ∧
    (customerMetric 0 [] [] [] [surveyZero] custA).churn_risk_score = 0 ∧
    churn_risk_from_spec 0 5 (some 0) 0 = 30 ∧
    (customerMetric 0 [] [] [] [surveyZero] custA).churn_risk_score ≠
      churn_risk_from_spec 0 5 (some 0) 0 := by decide

/-- Claim C3 (code behaviour at the failing input): a requested customer
count of 0 (and likewise any negative count) raises no validation error —
`__init__` stores the count unchecked — and the run completes, returning
the fixed plan catalog and seven empty tables. -/
theorem c3_no_validation_at_nonpositive_count :
    (generate_all_data 0 0 rng0).1.customers = [] ∧
    (generate_all_data 0 0 rng0).1.plans = generate_service_plans ∧
    (generate_all_data 0 0 rng0).1.services = [] ∧
    exceptOk (generate_all_data 0 0 rng0).1.usage = true ∧
    (generate_all_data 0 0 rng0).1.billing = [] ∧
    (generate_all_data 0 0 rng0).1.support_tickets = [] ∧
    (generate_all_data 0 0 rng0).1.nps_surveys = [] ∧
    (generate_all_data 0 0 rng0).1.customer_metrics = [] ∧
    (generate_all_data 0 (-3) rng0).1.customers = [] :=
  ⟨by decide, rfl, by decide, by decide, by decide, by decide, by decide, by decide, by decide⟩

/-- Claim C1 (counterexample): the seeds are set once at module import,
so a second invocation of `generate_all_data` in the same process
continues from the RNG state the first invocation left behind; the two
invocations produce different customers tables. -/
theorem c1_two_invocations_differ :
    (generate_all_data 0 1 rng0).1.customers ≠
      (generate_all_data 0 1 (generate_all_data 0 1 rng0).2).1.customers := by decide

/-- Claim C1 (amended): determinism holds relative to the seeded stream
and the clock: an invocation of `generate_all_data` is a pure function
of the stream (cursor reset to 0), the clock value `now`, and the
customer count, so re-running it from the reset state with the same
clock reproduces the full table set exactly. -/
theorem c1_reset_deterministic (stream : Nat → Nat) (now : Int) (num_customers : Int) :
    (generate_all_data now num_customers (RNG.mk stream 0)).1 =
      (generate_all_data now num_customers (RNG.mk stream 0)).1 := rfl
